import Mathlib

/-!
Shallow embedding of `src/travel_utils.py` (freight-dispatch-simulator).

The module is three pure numeric functions over real numbers:
`travel_time_s`, `haversine` and `distance_and_time`.  The Python
exception (`ValueError("Speed must be positive")`) is modelled by
`Except String`.  Python's `math.radians x` is `x * (π / 180)`.
-/

namespace TravelUtils

open Real

/-- Python `math.radians`: degrees to radians. -/
noncomputable def radians (x : ℝ) : ℝ := x * (Real.pi / 180)

/-- Embedding of `travel_time_s` (src/travel_utils.py lines 4-21):
raises `ValueError("Speed must be positive")` when `speed_kmh <= 0`,
otherwise returns `dist_km / speed_kmh * 3600`. -/
noncomputable def travel_time_s (dist_km speed_kmh : ℝ) : Except String ℝ :=
  if speed_kmh ≤ 0 then
    Except.error "Speed must be positive"
  else
    Except.ok (dist_km / speed_kmh * 3600)

/-- The intermediate value `a` of `haversine`
(src/travel_utils.py line 41):
`a = sin(dlat/2)**2 + cos(lat1)*cos(lat2)*sin(dlon/2)**2`
after converting the four degree inputs to radians. -/
noncomputable def haversine_a (lat1 lon1 lat2 lon2 : ℝ) : ℝ :=
  let lat1r := radians lat1
  let lon1r := radians lon1
  let lat2r := radians lat2
  let lon2r := radians lon2
  let dlon := lon2r - lon1r
  let dlat := lat2r - lat1r
  Real.sin (dlat / 2) ^ 2 +
    Real.cos lat1r * Real.cos lat2r * Real.sin (dlon / 2) ^ 2

/-- Embedding of `haversine` (src/travel_utils.py lines 24-44):
`c = 2 * asin(sqrt(a))`, returns `c * 6371`. -/
noncomputable def haversine (lat1 lon1 lat2 lon2 : ℝ) : ℝ :=
  let a := haversine_a lat1 lon1 lat2 lon2
  let c := 2 * Real.arcsin (Real.sqrt a)
  let r : ℝ := 6371
  c * r

/-- Embedding of `distance_and_time` (src/travel_utils.py lines 47-61):
computes the haversine distance, feeds it to `travel_time_s`, and returns
the pair; the exception from `travel_time_s` propagates. -/
noncomputable def distance_and_time (lat1 lon1 lat2 lon2 speed_kmh : ℝ) :
    Except String (ℝ × ℝ) :=
  let dist_km := haversine lat1 lon1 lat2 lon2
  match travel_time_s dist_km speed_kmh with
  | Except.error e => Except.error e
  | Except.ok t => Except.ok (dist_km, t)

/-- Modelled from the spec (section 4.1, steps 1-5): convert the four
degree inputs to radians, form `dlat` and `dlon` as differences,
`a = sin²(dlat/2) + cos lat1 * cos lat2 * sin²(dlon/2)`,
`c = 2 * asin (sqrt a)`, return `c * 6371`.  Written from the spec's
words, to be compared with `haversine` (from the source). -/
noncomputable def haversine_specAlg (lat1 lon1 lat2 lon2 : ℝ) : ℝ :=
  let lat1r := lat1 * (Real.pi / 180)
  let lon1r := lon1 * (Real.pi / 180)
  let lat2r := lat2 * (Real.pi / 180)
  let lon2r := lon2 * (Real.pi / 180)
  let dlat := lat2r - lat1r
  let dlon := lon2r - lon1r
  let a := Real.sin (dlat / 2) ^ 2 +
    Real.cos lat1r * Real.cos lat2r * Real.sin (dlon / 2) ^ 2
  let c := 2 * Real.arcsin (Real.sqrt a)
  c * 6371

/-! ### Helper lemmas -/

/-- The spherical law-of-cosines expression is at most `1`. -/
lemma sphericalCos_le_one (x y d : ℝ) :
    Real.sin x * Real.sin y + Real.cos x * Real.cos y * Real.cos d ≤ 1 := by
  have hxy := Real.cos_sub x y
  have hxy' := Real.cos_add x y
  have hd1 := Real.cos_le_one d
  have hd2 := Real.neg_one_le_cos d
  have h1 := Real.cos_le_one (x - y)
  have h2 := Real.cos_le_one (x + y)
  have h3 := Real.neg_one_le_cos (x + y)
  rcases le_or_lt 0 (Real.cos x * Real.cos y) with hc | hc
  · nlinarith
  · nlinarith

/-- The spherical law-of-cosines expression is at least `-1`. -/
lemma neg_one_le_sphericalCos (x y d : ℝ) :
    -1 ≤ Real.sin x * Real.sin y + Real.cos x * Real.cos y * Real.cos d := by
  have hxy := Real.cos_sub x y
  have hxy' := Real.cos_add x y
  have hd1 := Real.cos_le_one d
  have hd2 := Real.neg_one_le_cos d
  have h1 := Real.neg_one_le_cos (x - y)
  have h2 := Real.cos_le_one (x + y)
  have h3 := Real.neg_one_le_cos (x + y)
  rcases le_or_lt 0 (Real.cos x * Real.cos y) with hc | hc
  · nlinarith
  · nlinarith

/-- Half-angle identity specialised to our use:
`sin (t / 2) ^ 2 = (1 - cos t) / 2`. -/
lemma sin_half_sq (t : ℝ) : Real.sin (t / 2) ^ 2 = (1 - Real.cos t) / 2 := by
  have h := Real.sin_sq_eq_half_sub (t / 2)
  have ht : 2 * (t / 2) = t := by ring
  rw [ht] at h
  linarith

/-- Closed form of the haversine intermediate value in terms of the
spherical law of cosines. -/
lemma haversine_a_closed (x y d : ℝ) :
    Real.sin ((y - x) / 2) ^ 2 + Real.cos x * Real.cos y * Real.sin (d / 2) ^ 2
      = (1 - (Real.sin x * Real.sin y + Real.cos x * Real.cos y * Real.cos d)) / 2 := by
  rw [sin_half_sq (y - x), sin_half_sq d, Real.cos_sub]
  ring

/-- The intermediate value `a` lies in `[0, 1]` for all real inputs. -/
lemma haversine_a_mem (lat1 lon1 lat2 lon2 : ℝ) :
    0 ≤ haversine_a lat1 lon1 lat2 lon2 ∧ haversine_a lat1 lon1 lat2 lon2 ≤ 1 := by
  unfold haversine_a
  simp only
  rw [haversine_a_closed (radians lat1) (radians lat2) (radians lon2 - radians lon1)]
  constructor
  · have h := sphericalCos_le_one (radians lat1) (radians lat2)
      (radians lon2 - radians lon1)
    linarith
  · have h := neg_one_le_sphericalCos (radians lat1) (radians lat2)
      (radians lon2 - radians lon1)
    linarith

/-- `haversine` is non-negative. -/
lemma haversine_nonneg (lat1 lon1 lat2 lon2 : ℝ) :
    0 ≤ haversine lat1 lon1 lat2 lon2 := by
  unfold haversine
  simp only
  have h1 : 0 ≤ Real.arcsin (Real.sqrt (haversine_a lat1 lon1 lat2 lon2)) :=
    Real.arcsin_nonneg.mpr (Real.sqrt_nonneg _)
  nlinarith

/-- `haversine` is at most `π * 6371`. -/
lemma haversine_le (lat1 lon1 lat2 lon2 : ℝ) :
    haversine lat1 lon1 lat2 lon2 ≤ Real.pi * 6371 := by
  unfold haversine
  simp only
  have h2 : Real.arcsin (Real.sqrt (haversine_a lat1 lon1 lat2 lon2)) ≤ Real.pi / 2 :=
    Real.arcsin_le_pi_div_two _
  nlinarith

/-- `travel_time_s` only succeeds with a non-negative result when the
distance is non-negative. -/
lemma travel_time_s_ok_nonneg {d s t : ℝ} (hd : 0 ≤ d)
    (h : travel_time_s d s = Except.ok t) : 0 ≤ t := by
  by_cases hs : s ≤ 0
  · simp [travel_time_s, hs] at h
  · simp [travel_time_s, hs] at h
    have hs' : 0 < s := not_le.mp hs
    have : 0 ≤ d / s := div_nonneg hd hs'.le
    nlinarith

/-- `haversine_a` is symmetric under swapping the two points. -/
lemma haversine_a_symm (lat1 lon1 lat2 lon2 : ℝ) :
    haversine_a lat2 lon2 lat1 lon1 = haversine_a lat1 lon1 lat2 lon2 := by
  unfold haversine_a
  simp only
  rw [show (radians lat1 - radians lat2) / 2 = -((radians lat2 - radians lat1) / 2) by ring,
    show (radians lon1 - radians lon2) / 2 = -((radians lon2 - radians lon1) / 2) by ring]
  simp only [Real.sin_neg]
  ring

/-- `radians` turns a 360-degree shift into a `2π` shift. -/
lemma radians_add_360 (x : ℝ) : radians (x + 360) = radians x + 2 * Real.pi := by
  unfold radians
  ring

/-- The square of the sine is invariant under subtracting `π`. -/
lemma sin_sq_sub_pi (t : ℝ) : Real.sin (t - Real.pi) ^ 2 = Real.sin t ^ 2 := by
  rw [Real.sin_sub, Real.cos_pi, Real.sin_pi]
  ring

/-- The square of the sine is invariant under adding `π`. -/
lemma sin_sq_add_pi (t : ℝ) : Real.sin (t + Real.pi) ^ 2 = Real.sin t ^ 2 := by
  rw [Real.sin_add, Real.cos_pi, Real.sin_pi]
  ring

/-- `haversine_a` is invariant under adding 360 degrees to `lon1`. -/
lemma haversine_a_lon1_shift (lat1 lon1 lat2 lon2 : ℝ) :
    haversine_a lat1 (lon1 + 360) lat2 lon2 = haversine_a lat1 lon1 lat2 lon2 := by
  unfold haversine_a
  simp only [radians_add_360]
  rw [show (radians lon2 - (radians lon1 + 2 * Real.pi)) / 2
      = (radians lon2 - radians lon1) / 2 - Real.pi by ring,
    sin_sq_sub_pi]

/-- `haversine_a` is invariant under adding 360 degrees to `lon2`. -/
lemma haversine_a_lon2_shift (lat1 lon1 lat2 lon2 : ℝ) :
    haversine_a lat1 lon1 lat2 (lon2 + 360) = haversine_a lat1 lon1 lat2 lon2 := by
  unfold haversine_a
  simp only [radians_add_360]
  rw [show (radians lon2 + 2 * Real.pi - radians lon1) / 2
      = (radians lon2 - radians lon1) / 2 + Real.pi by ring,
    sin_sq_add_pi]

/-! ### Claim theorems -/

/-- C1: `haversine` computes exactly the algorithm of the spec: degrees
to radians, `dlat`/`dlon` differences, the haversine intermediate `a`,
`c = 2 asin (sqrt a)`, and `c * 6371`, for every real input. -/
theorem C1_haversine_matches_spec (lat1 lon1 lat2 lon2 : ℝ) :
    haversine lat1 lon1 lat2 lon2 = haversine_specAlg lat1 lon1 lat2 lon2 := by
  unfold haversine haversine_specAlg haversine_a radians
  ring

/-- C2: `travel_time_s` fails with the invalid-argument error exactly
when `speed_kmh ≤ 0`, and for every positive speed returns
`dist_km / speed_kmh * 3600`, for every real distance. -/
theorem C2_travel_time_s_contract (d s : ℝ) :
    (travel_time_s d s = Except.error "Speed must be positive" ↔ s ≤ 0) ∧
    (0 < s → travel_time_s d s = Except.ok (d / s * 3600)) := by
  refine ⟨⟨fun h => ?_, fun hs => ?_⟩, fun hs => ?_⟩
  · by_contra hs
    simp [travel_time_s, hs] at h
  · simp [travel_time_s, hs]
  · simp [travel_time_s, not_le.mpr hs]

/-- Witness for C2 at concrete inputs: speed 0 errors, 100 km at
50 km/h is 7200 seconds. -/
theorem C2_travel_time_s_contract_witness :
    travel_time_s 100 0 = Except.error "Speed must be positive" ∧
    travel_time_s 100 50 = Except.ok 7200 := by
  constructor
  · exact (C2_travel_time_s_contract 100 0).1.mpr le_rfl
  · rw [(C2_travel_time_s_contract 100 50).2 (by norm_num)]
    norm_num

/-- C3: `distance_and_time` is the pure composition of `haversine` and
`travel_time_s`: it returns the pair on success and propagates the
invalid-argument error unchanged, with no additional validation. -/
theorem C3_distance_and_time_composition (lat1 lon1 lat2 lon2 s : ℝ) :
    distance_and_time lat1 lon1 lat2 lon2 s =
      Except.map (fun t => (haversine lat1 lon1 lat2 lon2, t))
        (travel_time_s (haversine lat1 lon1 lat2 lon2) s) := by
  unfold distance_and_time
  cases h : travel_time_s (haversine lat1 lon1 lat2 lon2) s <;>
    simp [Except.map, h]

/-- C4: `haversine` raises no error: the intermediate value `a` lies in
`[0, 1]` and its square root lies in `[0, 1]`, so the arguments of
`sqrt` and `asin` are always in their domains, for every real input. -/
theorem C4_haversine_total (lat1 lon1 lat2 lon2 : ℝ) :
    0 ≤ haversine_a lat1 lon1 lat2 lon2 ∧ haversine_a lat1 lon1 lat2 lon2 ≤ 1 ∧
    0 ≤ Real.sqrt (haversine_a lat1 lon1 lat2 lon2) ∧
    Real.sqrt (haversine_a lat1 lon1 lat2 lon2) ≤ 1 := by
  obtain ⟨h0, h1⟩ := haversine_a_mem lat1 lon1 lat2 lon2
  exact ⟨h0, h1, Real.sqrt_nonneg _, Real.sqrt_le_one.mpr h1⟩

/-- C5: the output of `haversine` always lies in `[0, π * 6371]`; in
particular it is non-negative. -/
theorem C5_haversine_bounded (lat1 lon1 lat2 lon2 : ℝ) :
    0 ≤ haversine lat1 lon1 lat2 lon2 ∧
    haversine lat1 lon1 lat2 lon2 ≤ Real.pi * 6371 :=
  ⟨haversine_nonneg lat1 lon1 lat2 lon2, haversine_le lat1 lon1 lat2 lon2⟩

/-- C6: `haversine` is symmetric in its two points. -/
theorem C6_haversine_symm (lat1 lon1 lat2 lon2 : ℝ) :
    haversine lat1 lon1 lat2 lon2 = haversine lat2 lon2 lat1 lon1 := by
  unfold haversine
  rw [haversine_a_symm]

/-- C7: `haversine` of two identical points is exactly `0`. -/
theorem C7_haversine_self (lat lon : ℝ) : haversine lat lon lat lon = 0 := by
  simp [haversine, haversine_a]

/-- C9: `travel_time_s` is antitone in the speed for non-negative
distances: a higher speed never gives a longer time. -/
theorem C9_travel_time_s_antitone (d s1 s2 t1 t2 : ℝ) (hd : 0 ≤ d)
    (h1 : 0 < s1) (h12 : s1 ≤ s2)
    (ht1 : travel_time_s d s1 = Except.ok t1)
    (ht2 : travel_time_s d s2 = Except.ok t2) : t2 ≤ t1 := by
  have h2 : 0 < s2 := lt_of_lt_of_le h1 h12
  simp [travel_time_s, not_le.mpr h1] at ht1
  simp [travel_time_s, not_le.mpr h2] at ht2
  have hdiv : d / s2 ≤ d / s1 := by gcongr
  nlinarith

/-- Witness for C9: 100 km at 100 km/h (3600 s) is no slower than at
50 km/h (7200 s). -/
theorem C9_travel_time_s_antitone_witness : (3600 : ℝ) ≤ 7200 :=
  C9_travel_time_s_antitone 100 50 100 7200 3600 (by norm_num) (by norm_num)
    (by norm_num) (by norm_num [travel_time_s]) (by norm_num [travel_time_s])

/-- C10: `haversine` is invariant under shifting either longitude by a
full turn of 360 degrees. -/
theorem C10_haversine_lon_periodic (lat1 lon1 lat2 lon2 : ℝ) :
    haversine lat1 (lon1 + 360) lat2 lon2 = haversine lat1 lon1 lat2 lon2 ∧
    haversine lat1 lon1 lat2 (lon2 + 360) = haversine lat1 lon1 lat2 lon2 := by
  unfold haversine
  rw [haversine_a_lon1_shift, haversine_a_lon2_shift]
  exact ⟨rfl, rfl⟩

/-- C8 counterexample: `travel_time_s` accepts the negative distance
`-1` at speed `1` without error and returns `-3600`, a negative time. -/
theorem C8_counterexample :
    travel_time_s (-1) 1 = Except.ok (-3600) ∧ ((-3600 : ℝ) < 0) := by
  constructor
  · norm_num [travel_time_s]
  · norm_num

/-- C8 amended: for every non-negative distance accepted without error,
the seconds result of `travel_time_s` is non-negative; and the second
component of every pair returned by `distance_and_time` is
non-negative. -/
theorem C8_time_nonneg :
    (∀ d s t : ℝ, 0 ≤ d → travel_time_s d s = Except.ok t → 0 ≤ t) ∧
    (∀ lat1 lon1 lat2 lon2 s : ℝ, ∀ p : ℝ × ℝ,
      distance_and_time lat1 lon1 lat2 lon2 s = Except.ok p → 0 ≤ p.2) := by
  constructor
  · intro d s t hd h
    exact travel_time_s_ok_nonneg hd h
  · intro lat1 lon1 lat2 lon2 s p hp
    unfold distance_and_time at hp
    cases h : travel_time_s (haversine lat1 lon1 lat2 lon2) s with
    | error e => simp [h] at hp
    | ok t =>
      simp [h] at hp
      have ht : 0 ≤ t := travel_time_s_ok_nonneg (haversine_nonneg _ _ _ _) h
      rw [← hp]
      exact ht

/-- Witness for the amended C8: 100 km at 50 km/h gives the
non-negative time 7200 seconds. -/
theorem C8_time_nonneg_witness : (0 : ℝ) ≤ 7200 :=
  C8_time_nonneg.1 100 50 7200 (by norm_num) (by norm_num [travel_time_s])

end TravelUtils
